import Mathlib

/-!
# KVM SGX virtualization support: driver-symbol binding (`arch/x86/kvm/sgx.c`)

A shallow embedding of `sgx.c`: the table `sgx_driver_symbols`, the resolver
`get_sgx_driver_symbols` / `put_sgx_driver_symbols` with the entry points
`sgx_init` / `sgx_destroy`, and the five inline wrappers over the table.

Conventions of the embedding.

* A data pointer (`struct sgx_epc_page *`, `void *`, `struct sgx_encl *`) is a
  natural number, `0` being `NULL`.
* A function pointer is an `Option` of the function it points to, `none`
  being `NULL`.  The driver lives outside this file, so its four functions are
  arbitrary transformers of an arbitrary driver state `D`.
* The global `sgx_driver_symbols`, the state of the external driver and the
  reference trace of the kernel symbol registry form the `World` threaded
  through every function.
* `BUG_ON` stops the machine: a wrapper yields an `Outcome`, either `BUG` with
  the world as it was when the assertion fired or `ret` with the value
  returned and the world on return.
* The `printk` lines of `sgx_init` (`sgx_err`, `sgx_info`) only write to the
  kernel log and are left out.
-/

namespace KvmSgx

/-! ## Kernel facilities used by `sgx.c` -/

/-- The four driver exports named in `get_sgx_driver_symbols`, in the order
in which they are resolved. -/
inductive Sym where
  | sgx_alloc_page
  | sgx_free_page
  | sgx_get_page
  | sgx_put_page
  deriving DecidableEq, Repr

/-- Position (1..4) of an export in the fixed resolution order of
`get_sgx_driver_symbols`. -/
def Sym.index : Sym → Nat
  | .sgx_alloc_page => 1
  | .sgx_free_page => 2
  | .sgx_get_page => 3
  | .sgx_put_page => 4

/-- One reference operation on the symbol registry: `get s` is a `symbol_get`
that resolved `s` (and so took a reference), `put s` is a `symbol_put` of `s`. -/
inductive RefEvent where
  | get (s : Sym)
  | put (s : Sym)
  deriving DecidableEq, Repr

/-- `struct sgx_epc_page *(*)(unsigned int flags)`. -/
abbrev alloc_fn (D : Type) := Nat → D → Nat × D

/-- `int (*)(struct sgx_epc_page *epg, struct sgx_encl *encl)`. -/
abbrev free_fn (D : Type) := Nat → Nat → D → Int × D

/-- `void *(*)(struct sgx_epc_page *epg)`. -/
abbrev get_fn (D : Type) := Nat → D → Nat × D

/-- `void (*)(void *epc_page_vaddr)`. -/
abbrev put_fn (D : Type) := Nat → D → D

/-- Modelled from the spec: the runtime symbol-lookup facility of the host
(`symbol_get` resolves against it; it is kernel code outside `sgx.c`).  Each
of the four names is either exported (`some f`, `f` being the driver function
the name denotes) or cannot be resolved (`none`). -/
structure Registry (D : Type) where
  sgx_alloc_page : Option (alloc_fn D)
  sgx_free_page : Option (free_fn D)
  sgx_get_page : Option (get_fn D)
  sgx_put_page : Option (put_fn D)

/-- Whether the registry can resolve the export `s`. -/
def Registry.exports {D : Type} (reg : Registry D) : Sym → Bool
  | .sgx_alloc_page => reg.sgx_alloc_page.isSome
  | .sgx_free_page => reg.sgx_free_page.isSome
  | .sgx_get_page => reg.sgx_get_page.isSome
  | .sgx_put_page => reg.sgx_put_page.isSome

/-- Modelled from the spec: `symbol_get(s)` (a kernel macro, not in `sgx.c`):
"looking up a named export by string and returning an invocable reference or
failure", with reference counting against the exporter.  `found` is what the
registry holds for `s`; a successful lookup appends `get s` to the reference
trace, a failed one returns `NULL` and takes no reference. -/
def symbol_get {α : Type} (s : Sym) (found : Option α) (refs : List RefEvent) :
    Option α × List RefEvent :=
  match found with
  | some f => (some f, refs ++ [RefEvent.get s])
  | none => (none, refs)

/-- Modelled from the spec: `symbol_put(s)` (a kernel macro, not in `sgx.c`):
"releasing that reference"; appends `put s` to the reference trace. -/
def symbol_put (s : Sym) (refs : List RefEvent) : List RefEvent :=
  refs ++ [RefEvent.put s]

/-- Modelled from the spec: `EFAULT` of `errno-base.h` (not in the sources
given); its value is 14. -/
def EFAULT : Int := 14

/-- Modelled from the spec: `MAX_ERRNO` of `linux/err.h` (not in the sources
given): the error sentinels are the top 4095 values of the machine word. -/
def MAX_ERRNO : Nat := 4095

/-- Modelled from the spec: `IS_ERR_OR_NULL(ptr)` of `linux/err.h` (not in the
sources given): `!ptr || (unsigned long)ptr >= (unsigned long)-MAX_ERRNO` on a
64-bit machine word. -/
def IS_ERR_OR_NULL (ptr : Nat) : Bool :=
  ptr == 0 || decide (2 ^ 64 - MAX_ERRNO ≤ ptr % 2 ^ 64)

/-- Modelled from the spec: `PAGE_SHIFT` of `asm/page_types.h` (not in the
sources given); the page size is `2 ^ 12 = 4096`. -/
def PAGE_SHIFT : Nat := 12

/-- Modelled from the spec: `struct sgx_epc_page` of `asm/sgx.h` (not in the
sources given); only its physical-address field `pa` is read here. -/
structure sgx_epc_page where
  pa : Nat
  deriving DecidableEq, Repr

/-! ## The table and the world -/

/-- `struct required_sgx_driver_symbols`. -/
structure required_sgx_driver_symbols (D : Type) where
  alloc_epc_page : Option (alloc_fn D)
  free_epc_page : Option (free_fn D)
  get_epc_page : Option (get_fn D)
  put_epc_page : Option (put_fn D)

/-- The initializer of the static `sgx_driver_symbols` (all four `NULL`),
which is also what `memset(&sgx_driver_symbols, 0, ...)` leaves. -/
def required_sgx_driver_symbols.zero (D : Type) : required_sgx_driver_symbols D :=
  { alloc_epc_page := none, free_epc_page := none, get_epc_page := none, put_epc_page := none }

/-- State Bound: all four fields are non-`NULL`. -/
def required_sgx_driver_symbols.Bound {D : Type} (t : required_sgx_driver_symbols D) : Prop :=
  t.alloc_epc_page.isSome = true ∧ t.free_epc_page.isSome = true ∧
    t.get_epc_page.isSome = true ∧ t.put_epc_page.isSome = true

/-- State Unbound: all four fields are `NULL`. -/
def required_sgx_driver_symbols.Unbound {D : Type} (t : required_sgx_driver_symbols D) : Prop :=
  t.alloc_epc_page = none ∧ t.free_epc_page = none ∧
    t.get_epc_page = none ∧ t.put_epc_page = none

/-- Everything the code of `sgx.c` can read or change. -/
structure World (D : Type) where
  -- the static `sgx_driver_symbols`
  sgx_driver_symbols : required_sgx_driver_symbols D
  -- reference trace of the symbol registry
  refs : List RefEvent
  -- state of the external SGX driver
  drv : D

/-- The world at module load: the table as initialized, no reference taken. -/
def World.init {D : Type} (d : D) : World D :=
  { sgx_driver_symbols := required_sgx_driver_symbols.zero D, refs := [], drv := d }

/-- Number of references taken on `s` so far. -/
def World.gets {D : Type} (w : World D) (s : Sym) : Nat :=
  w.refs.count (RefEvent.get s)

/-- Number of times `s` has been released (`symbol_put`) so far. -/
def World.puts {D : Type} (w : World D) (s : Sym) : Nat :=
  w.refs.count (RefEvent.put s)

/-- Reference count of `s`: references taken minus references released. -/
def World.refcount {D : Type} (w : World D) (s : Sym) : Int :=
  (w.gets s : Int) - (w.puts s : Int)

/-- Result of a wrapper: `BUG s` when a `BUG_ON` fired in world `s`, else the
returned value and the world on return. -/
inductive Outcome (σ α : Type) where
  | BUG (s : σ)
  | ret (a : α) (s : σ)

/-! ## The wrappers -/

/-- `sgx_alloc_epc_page` (sgx.c:69-79). -/
def sgx_alloc_epc_page {D : Type} (flags : Nat) (w : World D) : Outcome (World D) Nat :=
  match w.sgx_driver_symbols.alloc_epc_page with
  | none => Outcome.BUG w
  | some f =>
    let r := f flags w.drv
    let epg := r.1
    Outcome.ret (if IS_ERR_OR_NULL epg then 0 else epg) { w with drv := r.2 }

/-- `sgx_free_epc_page` (sgx.c:81-86). -/
def sgx_free_epc_page {D : Type} (epg : Nat) (w : World D) : Outcome (World D) Unit :=
  match w.sgx_driver_symbols.free_epc_page with
  | none => Outcome.BUG w
  | some f => Outcome.ret () { w with drv := (f epg 0 w.drv).2 }

/-- `sgx_kmap_epc_page` (sgx.c:88-93). -/
def sgx_kmap_epc_page {D : Type} (epg : Nat) (w : World D) : Outcome (World D) Nat :=
  match w.sgx_driver_symbols.get_epc_page with
  | none => Outcome.BUG w
  | some f =>
    let r := f epg w.drv
    Outcome.ret r.1 { w with drv := r.2 }

/-- `sgx_kunmap_epc_page` (sgx.c:95-100). -/
def sgx_kunmap_epc_page {D : Type} (addr : Nat) (w : World D) : Outcome (World D) Unit :=
  match w.sgx_driver_symbols.put_epc_page with
  | none => Outcome.BUG w
  | some f => Outcome.ret () { w with drv := f addr w.drv }

/-- `sgx_epc_page_to_pfn` (sgx.c:102-105): `(u64)(epg->pa >> PAGE_SHIFT)`.
The argument is the page structure the handle points to. -/
def sgx_epc_page_to_pfn {D : Type} (epg : sgx_epc_page) (w : World D) : Outcome (World D) Nat :=
  Outcome.ret ((epg.pa >>> PAGE_SHIFT) % 2 ^ 64) w

/-! ## The resolver -/

/-- `put_sgx_driver_symbols` (sgx.c:131-143). -/
def put_sgx_driver_symbols {D : Type} (w : World D) : World D :=
  let r0 := w.refs
  let r1 := if w.sgx_driver_symbols.alloc_epc_page.isSome then symbol_put Sym.sgx_alloc_page r0 else r0
  let r2 := if w.sgx_driver_symbols.free_epc_page.isSome then symbol_put Sym.sgx_free_page r1 else r1
  let r3 := if w.sgx_driver_symbols.get_epc_page.isSome then symbol_put Sym.sgx_get_page r2 else r2
  let r4 := if w.sgx_driver_symbols.put_epc_page.isSome then symbol_put Sym.sgx_put_page r3 else r3
  { w with sgx_driver_symbols := required_sgx_driver_symbols.zero D, refs := r4 }

/-- `get_sgx_driver_symbols` (sgx.c:109-129).  Returns the `int` result and
the world on return; the `error:` label is the `put_sgx_driver_symbols` branch. -/
def get_sgx_driver_symbols {D : Type} (reg : Registry D) (w : World D) : Int × World D :=
  let g1 := symbol_get Sym.sgx_alloc_page reg.sgx_alloc_page w.refs
  let w1 : World D :=
    { w with sgx_driver_symbols := { w.sgx_driver_symbols with alloc_epc_page := g1.1 }, refs := g1.2 }
  if w1.sgx_driver_symbols.alloc_epc_page.isNone then (-EFAULT, put_sgx_driver_symbols w1) else
  let g2 := symbol_get Sym.sgx_free_page reg.sgx_free_page w1.refs
  let w2 : World D :=
    { w1 with sgx_driver_symbols := { w1.sgx_driver_symbols with free_epc_page := g2.1 }, refs := g2.2 }
  if w2.sgx_driver_symbols.free_epc_page.isNone then (-EFAULT, put_sgx_driver_symbols w2) else
  let g3 := symbol_get Sym.sgx_get_page reg.sgx_get_page w2.refs
  let w3 : World D :=
    { w2 with sgx_driver_symbols := { w2.sgx_driver_symbols with get_epc_page := g3.1 }, refs := g3.2 }
  if w3.sgx_driver_symbols.get_epc_page.isNone then (-EFAULT, put_sgx_driver_symbols w3) else
  let g4 := symbol_get Sym.sgx_put_page reg.sgx_put_page w3.refs
  let w4 : World D :=
    { w3 with sgx_driver_symbols := { w3.sgx_driver_symbols with put_epc_page := g4.1 }, refs := g4.2 }
  if w4.sgx_driver_symbols.put_epc_page.isNone then (-EFAULT, put_sgx_driver_symbols w4) else
  (0, w4)

/-- `sgx_init` (sgx.c:145-158). -/
def sgx_init {D : Type} (reg : Registry D) (w : World D) : Int × World D :=
  let r := get_sgx_driver_symbols reg w
  if r.1 ≠ 0 then (r.1, r.2) else (0, r.2)

/-- `sgx_destroy` (sgx.c:160-163). -/
def sgx_destroy {D : Type} (w : World D) : World D :=
  put_sgx_driver_symbols w

/-! ## Call sequences and a mock driver -/

/-- One call of a lifecycle entry point; `sgx_init` carries the registry that
the call resolves against, so the resolvable exports may differ per call. -/
inductive Call (D : Type) where
  | sgx_init (reg : Registry D)
  | sgx_destroy

/-- The world on return from one lifecycle call. -/
def Call.run {D : Type} : Call D → World D → World D
  | Call.sgx_init reg, w => (KvmSgx.sgx_init reg w).2
  | Call.sgx_destroy, w => KvmSgx.sgx_destroy w

/-- The world after a finite sequence of lifecycle calls, first call first. -/
def run_calls {D : Type} (cs : List (Call D)) (w : World D) : World D :=
  cs.foldl (fun acc c => c.run acc) w

/-- Whether an outcome is a fired `BUG_ON`. -/
def Outcome.isBUG {σ α : Type} : Outcome σ α → Bool
  | Outcome.BUG _ => true
  | Outcome.ret _ _ => false

/-- A driver call as recorded by the mock driver. -/
inductive DrvCall where
  | alloc (flags : Nat)
  | free (epg encl : Nat)
  | get (epg : Nat)
  | put (addr : Nat)
  deriving DecidableEq, Repr

/-- Mock allocate operation: records the call and returns `h`. -/
def mock_alloc (h : Nat) : alloc_fn (List DrvCall) :=
  fun flags d => (h, d ++ [DrvCall.alloc flags])

/-- Mock free operation: records the call and returns the status `st`. -/
def mock_free (st : Int) : free_fn (List DrvCall) :=
  fun epg encl d => (st, d ++ [DrvCall.free epg encl])

/-- Mock map operation: records the call and returns the address `a`. -/
def mock_get (a : Nat) : get_fn (List DrvCall) :=
  fun epg d => (a, d ++ [DrvCall.get epg])

/-- Mock unmap operation: records the call. -/
def mock_put : put_fn (List DrvCall) :=
  fun addr d => d ++ [DrvCall.put addr]

/-- A mock driver exporting all four operations: its state is the list of
calls made so far; allocate returns `h`, map returns `a`, free returns `st`. -/
def mock_registry (h a : Nat) (st : Int) : Registry (List DrvCall) :=
  { sgx_alloc_page := some (mock_alloc h),
    sgx_free_page := some (mock_free st),
    sgx_get_page := some (mock_get a),
    sgx_put_page := some mock_put }

/-- The mock registry with the export `k` withdrawn. -/
def mock_registry_without (k : Sym) : Registry (List DrvCall) :=
  match k with
  | Sym.sgx_alloc_page => { mock_registry 4096 8192 0 with sgx_alloc_page := none }
  | Sym.sgx_free_page => { mock_registry 4096 8192 0 with sgx_free_page := none }
  | Sym.sgx_get_page => { mock_registry 4096 8192 0 with sgx_get_page := none }
  | Sym.sgx_put_page => { mock_registry 4096 8192 0 with sgx_put_page := none }

/-- The reference operations of a failed `get_sgx_driver_symbols` that started
on the all-`NULL` table, by the first export that does not resolve: the exports
before it are referenced and then released, in order. -/
def rollback_refs : Sym → List RefEvent
  | Sym.sgx_alloc_page => []
  | Sym.sgx_free_page => [RefEvent.get Sym.sgx_alloc_page, RefEvent.put Sym.sgx_alloc_page]
  | Sym.sgx_get_page =>
    [RefEvent.get Sym.sgx_alloc_page, RefEvent.get Sym.sgx_free_page,
      RefEvent.put Sym.sgx_alloc_page, RefEvent.put Sym.sgx_free_page]
  | Sym.sgx_put_page =>
    [RefEvent.get Sym.sgx_alloc_page, RefEvent.get Sym.sgx_free_page,
      RefEvent.get Sym.sgx_get_page, RefEvent.put Sym.sgx_alloc_page,
      RefEvent.put Sym.sgx_free_page, RefEvent.put Sym.sgx_get_page]

/-! ## Auxiliary lemmas -/

theorem exports_all_iff {D : Type} (reg : Registry D) :
    (∀ s, reg.exports s = true) ↔
      (reg.sgx_alloc_page.isSome = true ∧ reg.sgx_free_page.isSome = true ∧
        reg.sgx_get_page.isSome = true ∧ reg.sgx_put_page.isSome = true) := by
  constructor
  · intro h
    exact ⟨h Sym.sgx_alloc_page, h Sym.sgx_free_page, h Sym.sgx_get_page, h Sym.sgx_put_page⟩
  · rintro ⟨h1, h2, h3, h4⟩ s
    cases s <;> assumption

/-- With all four exports present `get_sgx_driver_symbols` returns 0, stores
the four resolved functions and takes one reference on each, in order. -/
theorem get_sgx_driver_symbols_all {D : Type} (fa : alloc_fn D) (ff : free_fn D)
    (fg : get_fn D) (fp : put_fn D) (w : World D) :
    get_sgx_driver_symbols
        { sgx_alloc_page := some fa, sgx_free_page := some ff,
          sgx_get_page := some fg, sgx_put_page := some fp } w =
      (0, { sgx_driver_symbols :=
              { alloc_epc_page := some fa, free_epc_page := some ff,
                get_epc_page := some fg, put_epc_page := some fp },
            refs := w.refs ++ [RefEvent.get Sym.sgx_alloc_page, RefEvent.get Sym.sgx_free_page,
              RefEvent.get Sym.sgx_get_page, RefEvent.get Sym.sgx_put_page],
            drv := w.drv }) := by
  simp [get_sgx_driver_symbols, symbol_get]

/-- On a fully bound table `put_sgx_driver_symbols` releases each of the four
exports once, in order, and zeroes the table. -/
theorem put_sgx_driver_symbols_bound {D : Type} (fa : alloc_fn D) (ff : free_fn D)
    (fg : get_fn D) (fp : put_fn D) (l : List RefEvent) (d : D) :
    put_sgx_driver_symbols
        { sgx_driver_symbols :=
            { alloc_epc_page := some fa, free_epc_page := some ff,
              get_epc_page := some fg, put_epc_page := some fp },
          refs := l, drv := d } =
      { sgx_driver_symbols := required_sgx_driver_symbols.zero D,
        refs := l ++ [RefEvent.put Sym.sgx_alloc_page, RefEvent.put Sym.sgx_free_page,
          RefEvent.put Sym.sgx_get_page, RefEvent.put Sym.sgx_put_page],
        drv := d } := by
  simp [put_sgx_driver_symbols, symbol_put]

/-- On an all-`NULL` table `put_sgx_driver_symbols` changes nothing. -/
theorem put_sgx_driver_symbols_unbound {D : Type} (w : World D)
    (hw : w.sgx_driver_symbols.Unbound) : put_sgx_driver_symbols w = w := by
  rcases w with ⟨⟨a, f, g, p⟩, l, d⟩
  rcases hw with ⟨h1, h2, h3, h4⟩
  simp only at h1 h2 h3 h4
  subst h1 h2 h3 h4
  simp [put_sgx_driver_symbols, required_sgx_driver_symbols.zero]

/-- A failed `get_sgx_driver_symbols` from the all-`NULL` table: the result is
`-EFAULT`, the table is all-`NULL` again and the reference trace has grown by
`rollback_refs k`, `k` being the first export that does not resolve. -/
theorem get_sgx_driver_symbols_first_failure {D : Type} (reg : Registry D) (k : Sym)
    (l : List RefEvent) (d : D)
    (hk : reg.exports k = false)
    (hbefore : ∀ s, s.index < k.index → reg.exports s = true) :
    get_sgx_driver_symbols reg
        { sgx_driver_symbols := required_sgx_driver_symbols.zero D, refs := l, drv := d } =
      (-EFAULT, { sgx_driver_symbols := required_sgx_driver_symbols.zero D,
                  refs := l ++ rollback_refs k, drv := d }) := by
  rcases reg with ⟨a, f, g, p⟩
  have ha := hbefore Sym.sgx_alloc_page
  have hf := hbefore Sym.sgx_free_page
  have hg := hbefore Sym.sgx_get_page
  cases k
  · have hk0 : a = none := by cases a <;> simp_all [Registry.exports]
    subst hk0
    simp [get_sgx_driver_symbols, put_sgx_driver_symbols, symbol_get, rollback_refs,
      required_sgx_driver_symbols.zero]
  · have hk0 : f = none := by cases f <;> simp_all [Registry.exports]
    subst hk0
    simp only [Registry.exports, Sym.index, Option.isSome_iff_exists] at ha
    obtain ⟨fa, rfl⟩ := ha (by decide)
    simp [get_sgx_driver_symbols, put_sgx_driver_symbols, symbol_get, symbol_put, rollback_refs,
      required_sgx_driver_symbols.zero]
  · have hk0 : g = none := by cases g <;> simp_all [Registry.exports]
    subst hk0
    simp only [Registry.exports, Sym.index, Option.isSome_iff_exists] at ha hf
    obtain ⟨fa, rfl⟩ := ha (by decide)
    obtain ⟨ff, rfl⟩ := hf (by decide)
    simp [get_sgx_driver_symbols, put_sgx_driver_symbols, symbol_get, symbol_put, rollback_refs,
      required_sgx_driver_symbols.zero]
  · have hk0 : p = none := by cases p <;> simp_all [Registry.exports]
    subst hk0
    simp only [Registry.exports, Sym.index, Option.isSome_iff_exists] at ha hf hg
    obtain ⟨fa, rfl⟩ := ha (by decide)
    obtain ⟨ff, rfl⟩ := hf (by decide)
    obtain ⟨fg, rfl⟩ := hg (by decide)
    simp [get_sgx_driver_symbols, put_sgx_driver_symbols, symbol_get, symbol_put, rollback_refs,
      required_sgx_driver_symbols.zero]

/-- Every table that is all-`NULL` is the zeroed table. -/
theorem unbound_eq_zero {D : Type} (t : required_sgx_driver_symbols D) (h : t.Unbound) :
    t = required_sgx_driver_symbols.zero D := by
  rcases t with ⟨a, f, g, p⟩
  rcases h with ⟨h1, h2, h3, h4⟩
  simp only at h1 h2 h3 h4
  subst h1 h2 h3 h4
  rfl

theorem count_put_rollback_refs (k s : Sym) :
    (rollback_refs k).count (RefEvent.put s) = if s.index < k.index then 1 else 0 := by
  cases k <;> cases s <;> decide

theorem count_get_rollback_refs (k s : Sym) :
    (rollback_refs k).count (RefEvent.get s) = if s.index < k.index then 1 else 0 := by
  cases k <;> cases s <;> decide

/-- A registry that resolves all four exports is given by four functions. -/
theorem exports_all_cases {D : Type} (reg : Registry D) (h : ∀ s, reg.exports s = true) :
    ∃ fa ff fg fp, reg =
      { sgx_alloc_page := some fa, sgx_free_page := some ff,
        sgx_get_page := some fg, sgx_put_page := some fp } := by
  rcases reg with ⟨a, f, g, p⟩
  have h1 := h Sym.sgx_alloc_page
  have h2 := h Sym.sgx_free_page
  have h3 := h Sym.sgx_get_page
  have h4 := h Sym.sgx_put_page
  simp only [Registry.exports, Option.isSome_iff_exists] at h1 h2 h3 h4
  obtain ⟨fa, rfl⟩ := h1
  obtain ⟨ff, rfl⟩ := h2
  obtain ⟨fg, rfl⟩ := h3
  obtain ⟨fp, rfl⟩ := h4
  exact ⟨fa, ff, fg, fp, rfl⟩

/-- The result of `sgx_init` is the result of `get_sgx_driver_symbols`. -/
theorem sgx_init_eq_get {D : Type} (reg : Registry D) (w : World D) :
    sgx_init reg w = get_sgx_driver_symbols reg w := by
  unfold sgx_init
  by_cases h : (get_sgx_driver_symbols reg w).1 = 0
  · simp only [h, ne_eq, not_true_eq_false, if_false]
    exact Prod.ext h.symm rfl
  · simp only [ne_eq, h, not_false_eq_true, if_true]

/-- Whatever the table held before, after `get_sgx_driver_symbols` it is
fully populated or all-`NULL`. -/
theorem get_sgx_driver_symbols_bound_or_unbound {D : Type} (reg : Registry D) (w : World D) :
    (get_sgx_driver_symbols reg w).2.sgx_driver_symbols.Bound ∨
      (get_sgx_driver_symbols reg w).2.sgx_driver_symbols.Unbound := by
  rcases reg with ⟨a, f, g, p⟩
  cases a <;> cases f <;> cases g <;> cases p <;>
    simp [get_sgx_driver_symbols, put_sgx_driver_symbols, symbol_get,
      required_sgx_driver_symbols.Bound, required_sgx_driver_symbols.Unbound,
      required_sgx_driver_symbols.zero]

/-- From any world, `get_sgx_driver_symbols` returns 0 exactly when all four
exports resolve. -/
theorem get_sgx_driver_symbols_eq_zero_iff {D : Type} (reg : Registry D) (w : World D) :
    (get_sgx_driver_symbols reg w).1 = 0 ↔ ∀ s, reg.exports s = true := by
  rw [exports_all_iff]
  rcases reg with ⟨a, f, g, p⟩
  cases a <;> cases f <;> cases g <;> cases p <;>
    simp [get_sgx_driver_symbols, symbol_get, EFAULT]

/-- Applying `put_sgx_driver_symbols` twice is applying it once. -/
theorem put_sgx_driver_symbols_twice {D : Type} (w : World D) :
    put_sgx_driver_symbols (put_sgx_driver_symbols w) = put_sgx_driver_symbols w :=
  put_sgx_driver_symbols_unbound _ ⟨rfl, rfl, rfl, rfl⟩

/-- Equal reference counts written as equal numbers of gets and puts. -/
theorem refcount_zero_iff {D : Type} (w : World D) (s : Sym) :
    w.refcount s = 0 ↔
      (List.count (RefEvent.get s) w.refs : Int) = (List.count (RefEvent.put s) w.refs : Int) := by
  simp only [World.refcount, World.gets, World.puts]
  omega

/-! ## Claims -/

/-- C1: for every set of exports the registry can resolve,
`get_sgx_driver_symbols` and `sgx_init`, started on the Unbound table, return 0
exactly when all four exports resolve, and when they return 0 the table is
Bound (all four fields non-`NULL`). -/
theorem get_sgx_driver_symbols_succeeds_iff_all_exported {D : Type} (reg : Registry D)
    (l : List RefEvent) (d : D) :
    ((get_sgx_driver_symbols reg
        (World.mk (required_sgx_driver_symbols.zero D) l d)).1 = 0
      ↔ ∀ s, reg.exports s = true) ∧
    ((sgx_init reg
        (World.mk (required_sgx_driver_symbols.zero D) l d)).1 = 0
      ↔ ∀ s, reg.exports s = true) ∧
    ((get_sgx_driver_symbols reg
        (World.mk (required_sgx_driver_symbols.zero D) l d)).1 = 0 →
      (get_sgx_driver_symbols reg
        (World.mk (required_sgx_driver_symbols.zero D) l d)).2.sgx_driver_symbols.Bound) ∧
    ((sgx_init reg
        (World.mk (required_sgx_driver_symbols.zero D) l d)).1 = 0 →
      (sgx_init reg
        (World.mk (required_sgx_driver_symbols.zero D) l d)).2.sgx_driver_symbols.Bound) := by
  rw [exports_all_iff]
  rcases reg with ⟨a, f, g, p⟩
  cases a <;> cases f <;> cases g <;> cases p <;>
    simp [get_sgx_driver_symbols, sgx_init, symbol_get, EFAULT,
      required_sgx_driver_symbols.Bound, required_sgx_driver_symbols.zero]

/-- Witness for C1 on the mock driver: all four exports resolve, `sgx_init`
returns 0 and the table is Bound. -/
theorem get_sgx_driver_symbols_succeeds_iff_all_exported_witness :
    (sgx_init (mock_registry 4096 8192 0)
        (World.mk (required_sgx_driver_symbols.zero (List DrvCall)) [] [])).1 = 0 ∧
    (sgx_init (mock_registry 4096 8192 0)
        (World.mk (required_sgx_driver_symbols.zero (List DrvCall)) [] [])).2.sgx_driver_symbols.Bound :=
  ⟨rfl,
    (get_sgx_driver_symbols_succeeds_iff_all_exported (mock_registry 4096 8192 0) [] []).2.2.2
      rfl⟩

/-- C2: rollback on first failure.  Started on the Unbound table with every
reference count zero, if export `k` is the first (in the order alloc, free,
get, put) that does not resolve, `get_sgx_driver_symbols` returns failure
(`-EFAULT`), exactly the exports before `k` were resolved once and released
(`symbol_put`) once, no other export was released, every reference count is
zero again and the table is all-`NULL`. -/
theorem get_sgx_driver_symbols_rollback {D : Type} (reg : Registry D) (w : World D) (k : Sym)
    (hw : w.sgx_driver_symbols.Unbound)
    (hz : ∀ s, w.refcount s = 0)
    (hk : reg.exports k = false)
    (hbefore : ∀ s, s.index < k.index → reg.exports s = true) :
    (get_sgx_driver_symbols reg w).1 = -EFAULT ∧
    (get_sgx_driver_symbols reg w).1 ≠ 0 ∧
    (∀ s, (get_sgx_driver_symbols reg w).2.puts s =
      w.puts s + (if s.index < k.index then 1 else 0)) ∧
    (∀ s, (get_sgx_driver_symbols reg w).2.gets s =
      w.gets s + (if s.index < k.index then 1 else 0)) ∧
    (∀ s, (get_sgx_driver_symbols reg w).2.refcount s = 0) ∧
    (get_sgx_driver_symbols reg w).2.sgx_driver_symbols.Unbound := by
  rcases w with ⟨t, l, d⟩
  have ht : t = required_sgx_driver_symbols.zero D := unbound_eq_zero t hw
  subst ht
  rw [get_sgx_driver_symbols_first_failure reg k l d hk hbefore]
  have hz2 : ∀ s, (List.count (RefEvent.get s) l : Int) = (List.count (RefEvent.put s) l : Int) := by
    intro s
    have h := hz s
    simp only [World.refcount, World.gets, World.puts] at h
    omega
  refine ⟨rfl, by simp [EFAULT], ?_, ?_, ?_, ?_⟩
  · intro s
    simp [World.puts, List.count_append, count_put_rollback_refs]
  · intro s
    simp [World.gets, List.count_append, count_get_rollback_refs]
  · intro s
    have h := hz2 s
    simp only [World.refcount, World.gets, World.puts, List.count_append,
      count_put_rollback_refs, count_get_rollback_refs]
    push_cast
    omega
  · exact ⟨rfl, rfl, rfl, rfl⟩

/-- Witness for C2 on the mock driver with `sgx_get_page` withdrawn: alloc and
free are resolved and released once, get and put are not released. -/
theorem get_sgx_driver_symbols_rollback_witness :
    (get_sgx_driver_symbols (mock_registry_without Sym.sgx_get_page) (World.init [])).1
        = -EFAULT ∧
    (get_sgx_driver_symbols (mock_registry_without Sym.sgx_get_page) (World.init [])).1 ≠ 0 ∧
    (∀ s, (get_sgx_driver_symbols (mock_registry_without Sym.sgx_get_page) (World.init [])).2.puts s
        = (World.init ([] : List DrvCall)).puts s
          + (if s.index < Sym.sgx_get_page.index then 1 else 0)) ∧
    (∀ s, (get_sgx_driver_symbols (mock_registry_without Sym.sgx_get_page) (World.init [])).2.gets s
        = (World.init ([] : List DrvCall)).gets s
          + (if s.index < Sym.sgx_get_page.index then 1 else 0)) ∧
    (∀ s, (get_sgx_driver_symbols (mock_registry_without Sym.sgx_get_page)
        (World.init [])).2.refcount s = 0) ∧
    (get_sgx_driver_symbols (mock_registry_without Sym.sgx_get_page)
        (World.init [])).2.sgx_driver_symbols.Unbound :=
  get_sgx_driver_symbols_rollback (mock_registry_without Sym.sgx_get_page) (World.init [])
    Sym.sgx_get_page ⟨rfl, rfl, rfl, rfl⟩ (fun _ => rfl) rfl
    (fun s hs => by cases s <;> first | rfl | exact absurd hs (by decide))

/-- C3, counterexample: on the mock driver exporting all four operations,
started at module load, after `sgx_init; sgx_init; sgx_destroy` the reference
count of `sgx_alloc_page` is 1, not 0, and after `sgx_init; sgx_init` it is 2,
not 1. -/
theorem double_sgx_init_leaks_reference :
    (∀ s, (mock_registry 4096 8192 0).exports s = true) ∧
    (sgx_init (mock_registry 4096 8192 0) (World.init [])).1 = 0 ∧
    (sgx_init (mock_registry 4096 8192 0)
      (sgx_init (mock_registry 4096 8192 0) (World.init [])).2).1 = 0 ∧
    ¬ (∀ s, (sgx_destroy (sgx_init (mock_registry 4096 8192 0)
        (sgx_init (mock_registry 4096 8192 0) (World.init [])).2).2).refcount s = 0) ∧
    ¬ (∀ s, (sgx_init (mock_registry 4096 8192 0)
        (sgx_init (mock_registry 4096 8192 0) (World.init [])).2).2.refcount s = 1) := by
  refine ⟨fun s => by cases s <;> rfl, rfl, rfl, ?_, ?_⟩
  · intro h
    exact absurd (h Sym.sgx_alloc_page) (by decide)
  · intro h
    exact absurd (h Sym.sgx_alloc_page) (by decide)

/-- C3, amended: `sgx_init` on an already Bound table resolves the four exports
again and takes a second reference on each.  For a registry exporting all four
operations, started with every reference count zero, both calls of
`sgx_init; sgx_init` return 0, the table is Bound and every reference
count is 2; a following `sgx_destroy` releases each export once, leaving the
table Unbound and every reference count 1. -/
theorem double_sgx_init_takes_second_reference {D : Type} (reg : Registry D) (w : World D)
    (hreg : ∀ s, reg.exports s = true)
    (hz : ∀ s, w.refcount s = 0) :
    (sgx_init reg w).1 = 0 ∧
    (sgx_init reg (sgx_init reg w).2).1 = 0 ∧
    (sgx_init reg (sgx_init reg w).2).2.sgx_driver_symbols.Bound ∧
    (∀ s, (sgx_init reg (sgx_init reg w).2).2.refcount s = 2) ∧
    (sgx_destroy (sgx_init reg (sgx_init reg w).2).2).sgx_driver_symbols.Unbound ∧
    (∀ s, (sgx_destroy (sgx_init reg (sgx_init reg w).2).2).refcount s = 1) := by
  obtain ⟨fa, ff, fg, fp, rfl⟩ := exports_all_cases reg hreg
  have hz2 : ∀ s, (List.count (RefEvent.get s) w.refs : Int)
      = (List.count (RefEvent.put s) w.refs : Int) := by
    intro s
    have h := hz s
    simp only [World.refcount, World.gets, World.puts] at h
    omega
  refine ⟨?_, ?_, ?_, ?_, ?_, ?_⟩ <;>
    simp only [sgx_init_eq_get, get_sgx_driver_symbols_all, sgx_destroy,
      put_sgx_driver_symbols_bound]
  · exact ⟨rfl, rfl, rfl, rfl⟩
  · intro s
    have h := hz2 s
    cases s <;> simp [World.refcount, World.gets, World.puts, List.count_append] at h ⊢ <;> omega
  · exact ⟨rfl, rfl, rfl, rfl⟩
  · intro s
    have h := hz2 s
    cases s <;> simp [World.refcount, World.gets, World.puts, List.count_append] at h ⊢ <;> omega

/-- Witness for the amended C3 on the mock driver, started at module load. -/
theorem double_sgx_init_takes_second_reference_witness :
    (∀ s, (sgx_init (mock_registry 4096 8192 0)
        (sgx_init (mock_registry 4096 8192 0) (World.init [])).2).2.refcount s = 2) ∧
    (∀ s, (sgx_destroy (sgx_init (mock_registry 4096 8192 0)
        (sgx_init (mock_registry 4096 8192 0) (World.init [])).2).2).refcount s = 1) :=
  ⟨(double_sgx_init_takes_second_reference (mock_registry 4096 8192 0) (World.init [])
      (fun s => by cases s <;> rfl) (fun _ => rfl)).2.2.2.1,
    (double_sgx_init_takes_second_reference (mock_registry 4096 8192 0) (World.init [])
      (fun s => by cases s <;> rfl) (fun _ => rfl)).2.2.2.2.2⟩

/-- C4: all-or-nothing table.  Started on the initial all-`NULL` table, after
every finite sequence of `sgx_init` and `sgx_destroy` calls, each `sgx_init`
against a registry of its own, the table on return is fully populated (Bound)
or fully empty (Unbound). -/
theorem table_all_or_nothing {D : Type} (cs : List (Call D)) (l : List RefEvent) (d : D) :
    (run_calls cs (World.mk (required_sgx_driver_symbols.zero D) l d)).sgx_driver_symbols.Bound ∨
    (run_calls cs (World.mk (required_sgx_driver_symbols.zero D) l d)).sgx_driver_symbols.Unbound := by
  induction cs using List.reverseRecOn with
  | nil => exact Or.inr ⟨rfl, rfl, rfl, rfl⟩
  | append_singleton cs c _ =>
    simp only [run_calls, List.foldl_append, List.foldl_cons, List.foldl_nil]
    cases c with
    | sgx_init reg =>
      simp only [Call.run, sgx_init_eq_get]
      exact get_sgx_driver_symbols_bound_or_unbound reg _
    | sgx_destroy => exact Or.inr ⟨rfl, rfl, rfl, rfl⟩

/-- C5: idempotent release.  On an Unbound table `put_sgx_driver_symbols` and
`sgx_destroy` change nothing: no `symbol_put` is added to the reference trace
and the table stays all-`NULL`.  For every world a second release equals the
first, so it releases nothing; and after a successful `sgx_init` followed by two
`sgx_destroy` each of the four exports has been released exactly once. -/
theorem put_sgx_driver_symbols_idempotent {D : Type} (u w : World D) (reg : Registry D)
    (hu : u.sgx_driver_symbols.Unbound)
    (hinit : (sgx_init reg w).1 = 0) :
    put_sgx_driver_symbols u = u ∧
    sgx_destroy u = u ∧
    (put_sgx_driver_symbols u).refs = u.refs ∧
    (put_sgx_driver_symbols u).sgx_driver_symbols.Unbound ∧
    put_sgx_driver_symbols (put_sgx_driver_symbols w) = put_sgx_driver_symbols w ∧
    sgx_destroy (sgx_destroy w) = sgx_destroy w ∧
    (put_sgx_driver_symbols (put_sgx_driver_symbols w)).refs = (put_sgx_driver_symbols w).refs ∧
    (∀ s, (sgx_destroy (sgx_init reg w).2).puts s = w.puts s + 1) ∧
    (∀ s, (sgx_destroy (sgx_destroy (sgx_init reg w).2)).puts s = w.puts s + 1) := by
  have e := put_sgx_driver_symbols_unbound u hu
  have once : ∀ s, (sgx_destroy (sgx_init reg w).2).puts s = w.puts s + 1 := by
    rw [sgx_init_eq_get] at hinit ⊢
    obtain ⟨fa, ff, fg, fp, rfl⟩ :=
      exports_all_cases reg ((get_sgx_driver_symbols_eq_zero_iff reg w).1 hinit)
    intro s
    simp only [get_sgx_driver_symbols_all, sgx_destroy, put_sgx_driver_symbols_bound]
    cases s <;> simp [World.puts, List.count_append]
  refine ⟨e, e, by rw [e], ⟨rfl, rfl, rfl, rfl⟩, put_sgx_driver_symbols_twice w,
    put_sgx_driver_symbols_twice w, by rw [put_sgx_driver_symbols_twice], once, ?_⟩
  intro s
  have h2 : sgx_destroy (sgx_destroy (sgx_init reg w).2) = sgx_destroy (sgx_init reg w).2 :=
    put_sgx_driver_symbols_twice _
  rw [h2]
  exact once s

/-- Witness for C5 on the mock driver: release at module load changes nothing,
and after `sgx_init; sgx_destroy; sgx_destroy` every export was released once. -/
theorem put_sgx_driver_symbols_idempotent_witness :
    put_sgx_driver_symbols (World.init ([] : List DrvCall)) = World.init [] ∧
    (∀ s, (sgx_destroy (sgx_destroy (sgx_init (mock_registry 4096 8192 0)
        (World.init [])).2)).puts s = (World.init ([] : List DrvCall)).puts s + 1) :=
  ⟨(put_sgx_driver_symbols_idempotent (World.init []) (World.init [])
      (mock_registry 4096 8192 0) ⟨rfl, rfl, rfl, rfl⟩ rfl).1,
    (put_sgx_driver_symbols_idempotent (World.init []) (World.init [])
      (mock_registry 4096 8192 0) ⟨rfl, rfl, rfl, rfl⟩ rfl).2.2.2.2.2.2.2.2⟩

/-- C6: round-trip binding.  For a registry exporting all four operations,
started on the Unbound table with every reference count zero, in
`sgx_init; sgx_destroy; sgx_init` both calls of `sgx_init` return 0; the final
state (table, reference counts, driver state) is the one after the first
`sgx_init`, with the table Bound and every reference count exactly 1; and the
`sgx_destroy` in between leaves the table all-`NULL` and every reference count
zero. -/
theorem sgx_init_destroy_init_round_trip {D : Type} (reg : Registry D) (w : World D)
    (hreg : ∀ s, reg.exports s = true)
    (hw : w.sgx_driver_symbols.Unbound)
    (hz : ∀ s, w.refcount s = 0) :
    (sgx_init reg w).1 = 0 ∧
    (sgx_init reg (sgx_destroy (sgx_init reg w).2)).1 = 0 ∧
    (sgx_init reg (sgx_destroy (sgx_init reg w).2)).2.sgx_driver_symbols
      = (sgx_init reg w).2.sgx_driver_symbols ∧
    (∀ s, (sgx_init reg (sgx_destroy (sgx_init reg w).2)).2.refcount s
      = (sgx_init reg w).2.refcount s) ∧
    (sgx_init reg (sgx_destroy (sgx_init reg w).2)).2.drv = (sgx_init reg w).2.drv ∧
    (sgx_init reg (sgx_destroy (sgx_init reg w).2)).2.sgx_driver_symbols.Bound ∧
    (∀ s, (sgx_init reg (sgx_destroy (sgx_init reg w).2)).2.refcount s = 1) ∧
    (∀ s, (sgx_init reg w).2.refcount s = 1) ∧
    (sgx_destroy (sgx_init reg w).2).sgx_driver_symbols.Unbound ∧
    (∀ s, (sgx_destroy (sgx_init reg w).2).refcount s = 0) ∧
    (sgx_destroy (sgx_init reg w).2).sgx_driver_symbols = w.sgx_driver_symbols := by
  obtain ⟨fa, ff, fg, fp, rfl⟩ := exports_all_cases reg hreg
  have hz2 := fun s => (refcount_zero_iff w s).1 (hz s)
  have r1 : ∀ s, (sgx_init (Registry.mk (some fa) (some ff) (some fg) (some fp)) w).2.refcount s
      = 1 := by
    intro s
    have h := hz2 s
    simp only [sgx_init_eq_get, get_sgx_driver_symbols_all]
    cases s <;> simp [World.refcount, World.gets, World.puts, List.count_append] at h ⊢ <;> omega
  have r2 : ∀ s, (sgx_init (Registry.mk (some fa) (some ff) (some fg) (some fp))
      (sgx_destroy (sgx_init (Registry.mk (some fa) (some ff) (some fg) (some fp)) w).2)).2.refcount s
      = 1 := by
    intro s
    have h := hz2 s
    simp only [sgx_init_eq_get, get_sgx_driver_symbols_all, sgx_destroy,
      put_sgx_driver_symbols_bound]
    cases s <;> simp [World.refcount, World.gets, World.puts, List.count_append] at h ⊢ <;> omega
  refine ⟨?_, ?_, ?_, ?_, ?_, ?_, r2, r1, ?_, ?_, ?_⟩
  · simp only [sgx_init_eq_get, get_sgx_driver_symbols_all]
  · simp only [sgx_init_eq_get, get_sgx_driver_symbols_all]
  · simp only [sgx_init_eq_get, get_sgx_driver_symbols_all]
  · intro s
    rw [r1 s, r2 s]
  · simp only [sgx_init_eq_get, get_sgx_driver_symbols_all, sgx_destroy,
      put_sgx_driver_symbols_bound]
  · simp only [sgx_init_eq_get, get_sgx_driver_symbols_all]
    exact ⟨rfl, rfl, rfl, rfl⟩
  · exact ⟨rfl, rfl, rfl, rfl⟩
  · intro s
    have h := hz2 s
    simp only [sgx_init_eq_get, get_sgx_driver_symbols_all, sgx_destroy,
      put_sgx_driver_symbols_bound]
    cases s <;> simp [World.refcount, World.gets, World.puts, List.count_append] at h ⊢ <;> omega
  · rw [unbound_eq_zero w.sgx_driver_symbols hw]
    rfl

/-- Witness for C6 on the mock driver, started at module load. -/
theorem sgx_init_destroy_init_round_trip_witness :
    (sgx_init (mock_registry 4096 8192 0)
      (sgx_destroy (sgx_init (mock_registry 4096 8192 0) (World.init [])).2)).1 = 0 ∧
    (∀ s, (sgx_init (mock_registry 4096 8192 0)
      (sgx_destroy (sgx_init (mock_registry 4096 8192 0) (World.init [])).2)).2.refcount s = 1) :=
  ⟨(sgx_init_destroy_init_round_trip (mock_registry 4096 8192 0) (World.init [])
      (fun s => by cases s <;> rfl) ⟨rfl, rfl, rfl, rfl⟩ (fun _ => rfl)).2.1,
    (sgx_init_destroy_init_round_trip (mock_registry 4096 8192 0) (World.init [])
      (fun s => by cases s <;> rfl) ⟨rfl, rfl, rfl, rfl⟩ (fun _ => rfl)).2.2.2.2.2.2.1⟩

/-- C7: adapter gating.  On an Unbound (all-`NULL`) table each of the four
wrappers, for every argument, ends in `BUG` with the world exactly as it was
on entry, so no driver operation has run and nothing is returned; on a Bound
table none of the four wrappers ends in `BUG`. -/
theorem wrappers_gated_on_table {D : Type} (u b : World D) (flags epg addr : Nat)
    (hu : u.sgx_driver_symbols.Unbound)
    (hb : b.sgx_driver_symbols.Bound) :
    (sgx_alloc_epc_page flags u = Outcome.BUG u ∧
      sgx_free_epc_page epg u = Outcome.BUG u ∧
      sgx_kmap_epc_page epg u = Outcome.BUG u ∧
      sgx_kunmap_epc_page addr u = Outcome.BUG u) ∧
    ((sgx_alloc_epc_page flags b).isBUG = false ∧
      (sgx_free_epc_page epg b).isBUG = false ∧
      (sgx_kmap_epc_page epg b).isBUG = false ∧
      (sgx_kunmap_epc_page addr b).isBUG = false) := by
  rcases hu with ⟨u1, u2, u3, u4⟩
  rcases hb with ⟨b1, b2, b3, b4⟩
  rw [Option.isSome_iff_exists] at b1 b2 b3 b4
  obtain ⟨fa, b1⟩ := b1
  obtain ⟨ff, b2⟩ := b2
  obtain ⟨fg, b3⟩ := b3
  obtain ⟨fp, b4⟩ := b4
  refine ⟨⟨?_, ?_, ?_, ?_⟩, ⟨?_, ?_, ?_, ?_⟩⟩
  · simp only [sgx_alloc_epc_page, u1]
  · simp only [sgx_free_epc_page, u2]
  · simp only [sgx_kmap_epc_page, u3]
  · simp only [sgx_kunmap_epc_page, u4]
  · simp only [sgx_alloc_epc_page, b1, Outcome.isBUG]
  · simp only [sgx_free_epc_page, b2, Outcome.isBUG]
  · simp only [sgx_kmap_epc_page, b3, Outcome.isBUG]
  · simp only [sgx_kunmap_epc_page, b4, Outcome.isBUG]

/-- Witness for C7: the mock driver at module load (Unbound) and after
`sgx_init` (Bound). -/
theorem wrappers_gated_on_table_witness :
    (sgx_alloc_epc_page 0 (World.init ([] : List DrvCall)) = Outcome.BUG (World.init []) ∧
      sgx_free_epc_page 4096 (World.init ([] : List DrvCall)) = Outcome.BUG (World.init []) ∧
      sgx_kmap_epc_page 4096 (World.init ([] : List DrvCall)) = Outcome.BUG (World.init []) ∧
      sgx_kunmap_epc_page 8192 (World.init ([] : List DrvCall)) = Outcome.BUG (World.init [])) ∧
    ((sgx_alloc_epc_page 0
        (sgx_init (mock_registry 4096 8192 0) (World.init [])).2).isBUG = false ∧
      (sgx_free_epc_page 4096
        (sgx_init (mock_registry 4096 8192 0) (World.init [])).2).isBUG = false ∧
      (sgx_kmap_epc_page 4096
        (sgx_init (mock_registry 4096 8192 0) (World.init [])).2).isBUG = false ∧
      (sgx_kunmap_epc_page 8192
        (sgx_init (mock_registry 4096 8192 0) (World.init [])).2).isBUG = false) :=
  wrappers_gated_on_table (World.init [])
    (sgx_init (mock_registry 4096 8192 0) (World.init [])).2 0 4096 8192
    ⟨rfl, rfl, rfl, rfl⟩ ⟨rfl, rfl, rfl, rfl⟩

/-- C8: sentinel normalization.  With the table Bound, for every `flags` and
every machine word `p` that the bound allocate operation returns,
`sgx_alloc_epc_page` returns `NULL` (0) when `p` is `NULL` or an error
sentinel (`p ≥ 2^64 - 4095`), the same value as for a `NULL` return, and
returns `p` itself otherwise; the driver is called once and the table and the
reference trace are untouched. -/
theorem sgx_alloc_epc_page_normalizes_sentinel {D : Type} (fa : alloc_fn D) (ff : free_fn D)
    (fg : get_fn D) (fp : put_fn D) (l : List RefEvent) (d0 d1 : D) (flags p : Nat)
    (hret : fa flags d0 = (p, d1))
    (hword : p < 2 ^ 64) :
    sgx_alloc_epc_page flags
        (World.mk (required_sgx_driver_symbols.mk (some fa) (some ff) (some fg) (some fp)) l d0) =
      Outcome.ret (if p = 0 ∨ 2 ^ 64 - 4095 ≤ p then 0 else p)
        (World.mk (required_sgx_driver_symbols.mk (some fa) (some ff) (some fg) (some fp)) l d1) := by
  simp only [sgx_alloc_epc_page, hret, IS_ERR_OR_NULL, MAX_ERRNO, Nat.mod_eq_of_lt hword]
  by_cases h0 : p = 0
  · simp [h0]
  · by_cases h1 : 2 ^ 64 - 4095 ≤ p
    · simp [h0, h1]
    · simp [h0, h1]

/-- Witness for C8: the mock allocate operation returning the sentinel
`ERR_PTR(-ENOMEM)`, that is `2^64 - 12`; the wrapper returns `NULL`. -/
theorem sgx_alloc_epc_page_normalizes_sentinel_witness :
    sgx_alloc_epc_page 0
        (World.mk (required_sgx_driver_symbols.mk (some (mock_alloc (2 ^ 64 - 12)))
          (some (mock_free 0)) (some (mock_get 8192)) (some mock_put)) [] []) =
      Outcome.ret (if 2 ^ 64 - 12 = 0 ∨ 2 ^ 64 - 4095 ≤ 2 ^ 64 - 12 then 0 else 2 ^ 64 - 12)
        (World.mk (required_sgx_driver_symbols.mk (some (mock_alloc (2 ^ 64 - 12)))
          (some (mock_free 0)) (some (mock_get 8192)) (some mock_put)) [] [DrvCall.alloc 0]) :=
  sgx_alloc_epc_page_normalizes_sentinel (mock_alloc (2 ^ 64 - 12)) (mock_free 0)
    (mock_get 8192) mock_put [] [] [DrvCall.alloc 0] 0 (2 ^ 64 - 12) rfl (by decide)

/-- C9: frame translation.  For a page handle whose physical-address field is
a 64-bit value `A`, `sgx_epc_page_to_pfn` returns exactly `A / 4096` in every
world (Bound or Unbound table alike), and the world on return is the world on
entry: no driver operation ran and the table is unchanged. -/
theorem sgx_epc_page_to_pfn_eq_div {D : Type} (epg : sgx_epc_page) (w : World D)
    (hpa : epg.pa < 2 ^ 64) :
    sgx_epc_page_to_pfn epg w = Outcome.ret (epg.pa / 4096) w := by
  have h1 : epg.pa >>> PAGE_SHIFT = epg.pa / 4096 := by
    rw [Nat.shiftRight_eq_div_pow]
    rfl
  have h2 : epg.pa / 4096 < 2 ^ 64 :=
    lt_of_le_of_lt (Nat.div_le_self _ _) hpa
  simp only [sgx_epc_page_to_pfn, h1, Nat.mod_eq_of_lt h2]

/-- Witness for C9: physical address `0x12345678` has frame number `0x12345`,
here on the Unbound table. -/
theorem sgx_epc_page_to_pfn_eq_div_witness :
    sgx_epc_page_to_pfn (sgx_epc_page.mk 0x12345678) (World.init ([] : List DrvCall)) =
      Outcome.ret (0x12345678 / 4096) (World.init []) :=
  sgx_epc_page_to_pfn_eq_div (sgx_epc_page.mk 0x12345678) (World.init []) (by decide)

/-- C10: end-to-end scenario.  For a registry exporting all four operations
whose allocate returns a valid handle `h` (neither `NULL` nor a sentinel) and
whose map returns the address `a` (non-`NULL` or not), started on the Unbound
table with every reference count zero: `sgx_init` returns 0,
`sgx_alloc_epc_page(0)` returns `h`, `sgx_kmap_epc_page(h)` returns `a`,
`sgx_kunmap_epc_page(a)` and `sgx_free_epc_page(h)` return, no `BUG_ON` fires,
and after `sgx_destroy` the table is Unbound and all four reference counts are
zero. -/
theorem end_to_end_scenario {D : Type} (fa : alloc_fn D) (ff : free_fn D) (fg : get_fn D)
    (fp : put_fn D) (l : List RefEvent) (d0 d1 d2 : D) (h a : Nat)
    (hz : ∀ s, (World.mk (required_sgx_driver_symbols.zero D) l d0).refcount s = 0)
    (halloc : fa 0 d0 = (h, d1))
    (hh : h ≠ 0 ∧ h < 2 ^ 64 - 4095)
    (hmap : fg h d1 = (a, d2)) :
    ∃ w1 w2 w3 w4 w5 : World D,
      sgx_init (Registry.mk (some fa) (some ff) (some fg) (some fp))
        (World.mk (required_sgx_driver_symbols.zero D) l d0) = (0, w1) ∧
      sgx_alloc_epc_page 0 w1 = Outcome.ret h w2 ∧
      sgx_kmap_epc_page h w2 = Outcome.ret a w3 ∧
      sgx_kunmap_epc_page a w3 = Outcome.ret () w4 ∧
      sgx_free_epc_page h w4 = Outcome.ret () w5 ∧
      (sgx_destroy w5).sgx_driver_symbols.Unbound ∧
      (∀ s, (sgx_destroy w5).refcount s = 0) ∧
      (sgx_destroy w5).drv = (ff h 0 (fp a d2)).2 := by
  have hz2 := fun s => (refcount_zero_iff _ s).1 (hz s)
  have hlt : h < 2 ^ 64 := by omega
  have hnot : IS_ERR_OR_NULL h = false := by
    simp only [IS_ERR_OR_NULL, MAX_ERRNO, Nat.mod_eq_of_lt hlt]
    simp only [Bool.or_eq_false_iff, beq_eq_false_iff_ne, ne_eq, decide_eq_false_iff_not]
    exact ⟨hh.1, by omega⟩
  refine ⟨World.mk (required_sgx_driver_symbols.mk (some fa) (some ff) (some fg) (some fp)) (l ++ [RefEvent.get Sym.sgx_alloc_page, RefEvent.get Sym.sgx_free_page,
      RefEvent.get Sym.sgx_get_page, RefEvent.get Sym.sgx_put_page]) d0,
    World.mk (required_sgx_driver_symbols.mk (some fa) (some ff) (some fg) (some fp)) (l ++ [RefEvent.get Sym.sgx_alloc_page, RefEvent.get Sym.sgx_free_page,
      RefEvent.get Sym.sgx_get_page, RefEvent.get Sym.sgx_put_page]) d1,
    World.mk (required_sgx_driver_symbols.mk (some fa) (some ff) (some fg) (some fp)) (l ++ [RefEvent.get Sym.sgx_alloc_page, RefEvent.get Sym.sgx_free_page,
      RefEvent.get Sym.sgx_get_page, RefEvent.get Sym.sgx_put_page]) d2,
    World.mk (required_sgx_driver_symbols.mk (some fa) (some ff) (some fg) (some fp)) (l ++ [RefEvent.get Sym.sgx_alloc_page, RefEvent.get Sym.sgx_free_page,
      RefEvent.get Sym.sgx_get_page, RefEvent.get Sym.sgx_put_page]) (fp a d2),
    World.mk (required_sgx_driver_symbols.mk (some fa) (some ff) (some fg) (some fp)) (l ++ [RefEvent.get Sym.sgx_alloc_page, RefEvent.get Sym.sgx_free_page,
      RefEvent.get Sym.sgx_get_page, RefEvent.get Sym.sgx_put_page]) (ff h 0 (fp a d2)).2,
    ?_, ?_, ?_, ?_, ?_, ?_, ?_, ?_⟩
  · rw [sgx_init_eq_get, get_sgx_driver_symbols_all]
  · simp only [sgx_alloc_epc_page, halloc, hnot]
    rfl
  · simp only [sgx_kmap_epc_page, hmap]
  · simp only [sgx_kunmap_epc_page]
  · simp only [sgx_free_epc_page]
  · exact ⟨rfl, rfl, rfl, rfl⟩
  · intro s
    have hs := hz2 s
    simp only [sgx_destroy, put_sgx_driver_symbols_bound]
    cases s <;> simp [World.refcount, World.gets, World.puts, List.count_append] at hs ⊢ <;> omega
  · rfl

/-- Witness for C10 on the mock driver: allocate returns the handle `4096`, map
returns the address `8192`, and the driver sees the four calls in order. -/
theorem end_to_end_scenario_witness :
    ∃ w1 w2 w3 w4 w5 : World (List DrvCall),
      sgx_init (Registry.mk (some (mock_alloc 4096)) (some (mock_free 0)) (some (mock_get 8192))
          (some mock_put))
        (World.mk (required_sgx_driver_symbols.zero (List DrvCall)) [] []) = (0, w1) ∧
      sgx_alloc_epc_page 0 w1 = Outcome.ret 4096 w2 ∧
      sgx_kmap_epc_page 4096 w2 = Outcome.ret 8192 w3 ∧
      sgx_kunmap_epc_page 8192 w3 = Outcome.ret () w4 ∧
      sgx_free_epc_page 4096 w4 = Outcome.ret () w5 ∧
      (sgx_destroy w5).sgx_driver_symbols.Unbound ∧
      (∀ s, (sgx_destroy w5).refcount s = 0) ∧
      (sgx_destroy w5).drv =
        (mock_free 0 4096 0 (mock_put 8192 [DrvCall.alloc 0, DrvCall.get 4096])).2 :=
  end_to_end_scenario (mock_alloc 4096) (mock_free 0) (mock_get 8192) mock_put [] []
    [DrvCall.alloc 0] [DrvCall.alloc 0, DrvCall.get 4096] 4096 8192
    (fun _ => rfl) rfl ⟨by decide, by decide⟩ rfl


/-- C11: free forwarding.  With the table Bound, for every handle `h` (`NULL`
included) `sgx_free_epc_page(h)` returns, and the driver state on return is
the one left by a single call of the bound free operation with the arguments
`(h, NULL)`; the `int` status of that call appears nowhere in the outcome,
which is fixed by the effect of the free operation on the driver alone.  On
the mock driver: whatever status `st` the mock returns, the call log grows by
exactly the one entry `free h 0`, and nothing else changes. -/
theorem sgx_free_epc_page_forwards_once {D : Type} (fa : alloc_fn D) (ff : free_fn D)
    (fg : get_fn D) (fp : put_fn D) (l : List RefEvent) (d : D) (h : Nat) :
    sgx_free_epc_page h (World.mk (required_sgx_driver_symbols.mk (some fa) (some ff) (some fg) (some fp)) l d) =
      Outcome.ret () (World.mk (required_sgx_driver_symbols.mk (some fa) (some ff) (some fg) (some fp)) l (ff h 0 d).2) ∧
    (∀ (status : Nat → Nat → D → Int) (effect : Nat → Nat → D → D),
      sgx_free_epc_page h
          (World.mk (required_sgx_driver_symbols.mk (some fa)
            (some (fun e o x => (status e o x, effect e o x))) (some fg) (some fp)) l d) =
        Outcome.ret ()
          (World.mk (required_sgx_driver_symbols.mk (some fa)
            (some (fun e o x => (status e o x, effect e o x))) (some fg) (some fp)) l
            (effect h 0 d))) ∧
    (∀ (x a : Nat) (st : Int) (log : List DrvCall),
      sgx_free_epc_page h (sgx_init (mock_registry x a st) (World.init log)).2 =
        Outcome.ret ()
          (World.mk (sgx_init (mock_registry x a st) (World.init log)).2.sgx_driver_symbols
            (sgx_init (mock_registry x a st) (World.init log)).2.refs
            (log ++ [DrvCall.free h 0]))) :=
  ⟨rfl, fun _ _ => rfl, fun _ _ _ _ => rfl⟩

/-- C12: read-only adapter.  Whenever one of `sgx_alloc_epc_page`,
`sgx_free_epc_page`, `sgx_kmap_epc_page`, `sgx_kunmap_epc_page` and
`sgx_epc_page_to_pfn` returns, for every argument and every world it was
entered in (each wrapper in a world of its own, fully bound or not), all four
fields of `sgx_driver_symbols` and every symbol reference count are what they
were on entry.  The two remaining entry points change them only through the
resolver: `sgx_init` is `get_sgx_driver_symbols` and `sgx_destroy` is
`put_sgx_driver_symbols`. -/
theorem wrappers_leave_table_and_refcounts {D : Type} (va vf vm vu vp w : World D)
    (wa wf wm wu wp : World D) (flags epg addr ra rm rp : Nat) (page : sgx_epc_page)
    (reg : Registry D)
    (halloc : sgx_alloc_epc_page flags va = Outcome.ret ra wa)
    (hfree : sgx_free_epc_page epg vf = Outcome.ret () wf)
    (hmap : sgx_kmap_epc_page epg vm = Outcome.ret rm wm)
    (hunmap : sgx_kunmap_epc_page addr vu = Outcome.ret () wu)
    (hpfn : sgx_epc_page_to_pfn page vp = Outcome.ret rp wp) :
    (wa.sgx_driver_symbols = va.sgx_driver_symbols ∧ ∀ s, wa.refcount s = va.refcount s) ∧
    (wf.sgx_driver_symbols = vf.sgx_driver_symbols ∧ ∀ s, wf.refcount s = vf.refcount s) ∧
    (wm.sgx_driver_symbols = vm.sgx_driver_symbols ∧ ∀ s, wm.refcount s = vm.refcount s) ∧
    (wu.sgx_driver_symbols = vu.sgx_driver_symbols ∧ ∀ s, wu.refcount s = vu.refcount s) ∧
    (wp.sgx_driver_symbols = vp.sgx_driver_symbols ∧ ∀ s, wp.refcount s = vp.refcount s) ∧
    sgx_init reg w = get_sgx_driver_symbols reg w ∧
    sgx_destroy w = put_sgx_driver_symbols w := by
  refine ⟨?_, ?_, ?_, ?_, ?_, sgx_init_eq_get reg w, rfl⟩
  · unfold sgx_alloc_epc_page at halloc
    cases hf : va.sgx_driver_symbols.alloc_epc_page with
    | none => simp [hf] at halloc
    | some f =>
      simp only [hf, Outcome.ret.injEq] at halloc
      rw [← halloc.2]
      exact ⟨rfl, fun _ => rfl⟩
  · unfold sgx_free_epc_page at hfree
    cases hf : vf.sgx_driver_symbols.free_epc_page with
    | none => simp [hf] at hfree
    | some f =>
      simp only [hf, Outcome.ret.injEq] at hfree
      rw [← hfree.2]
      exact ⟨rfl, fun _ => rfl⟩
  · unfold sgx_kmap_epc_page at hmap
    cases hf : vm.sgx_driver_symbols.get_epc_page with
    | none => simp [hf] at hmap
    | some f =>
      simp only [hf, Outcome.ret.injEq] at hmap
      rw [← hmap.2]
      exact ⟨rfl, fun _ => rfl⟩
  · unfold sgx_kunmap_epc_page at hunmap
    cases hf : vu.sgx_driver_symbols.put_epc_page with
    | none => simp [hf] at hunmap
    | some f =>
      simp only [hf, Outcome.ret.injEq] at hunmap
      rw [← hunmap.2]
      exact ⟨rfl, fun _ => rfl⟩
  · simp only [sgx_epc_page_to_pfn, Outcome.ret.injEq] at hpfn
    rw [← hpfn.2]
    exact ⟨rfl, fun _ => rfl⟩

/-- Witness for C12 on the mock driver after `sgx_init`: each of the five
wrappers returns, and the table and the reference counts are unchanged. -/
theorem wrappers_leave_table_and_refcounts_witness :
    sgx_alloc_epc_page 0 (sgx_init (mock_registry 4096 8192 0) (World.init [])).2 =
      Outcome.ret 4096 (World.mk (sgx_init (mock_registry 4096 8192 0) (World.init [])).2.sgx_driver_symbols
        (sgx_init (mock_registry 4096 8192 0) (World.init [])).2.refs [DrvCall.alloc 0]) ∧
    (World.mk (sgx_init (mock_registry 4096 8192 0) (World.init [])).2.sgx_driver_symbols
        (sgx_init (mock_registry 4096 8192 0) (World.init [])).2.refs [DrvCall.alloc 0]).sgx_driver_symbols =
      (sgx_init (mock_registry 4096 8192 0) (World.init [])).2.sgx_driver_symbols ∧
    (∀ s, (World.mk (sgx_init (mock_registry 4096 8192 0) (World.init [])).2.sgx_driver_symbols
        (sgx_init (mock_registry 4096 8192 0) (World.init [])).2.refs [DrvCall.alloc 0]).refcount s =
      (sgx_init (mock_registry 4096 8192 0) (World.init [])).2.refcount s) :=
  ⟨rfl,
    (wrappers_leave_table_and_refcounts (sgx_init (mock_registry 4096 8192 0) (World.init [])).2
      (sgx_init (mock_registry 4096 8192 0) (World.init [])).2
      (sgx_init (mock_registry 4096 8192 0) (World.init [])).2
      (sgx_init (mock_registry 4096 8192 0) (World.init [])).2
      (sgx_init (mock_registry 4096 8192 0) (World.init [])).2
      (sgx_init (mock_registry 4096 8192 0) (World.init [])).2
      (World.mk (sgx_init (mock_registry 4096 8192 0) (World.init [])).2.sgx_driver_symbols
        (sgx_init (mock_registry 4096 8192 0) (World.init [])).2.refs [DrvCall.alloc 0])
      (World.mk (sgx_init (mock_registry 4096 8192 0) (World.init [])).2.sgx_driver_symbols
        (sgx_init (mock_registry 4096 8192 0) (World.init [])).2.refs [DrvCall.free 4096 0])
      (World.mk (sgx_init (mock_registry 4096 8192 0) (World.init [])).2.sgx_driver_symbols
        (sgx_init (mock_registry 4096 8192 0) (World.init [])).2.refs [DrvCall.get 4096])
      (World.mk (sgx_init (mock_registry 4096 8192 0) (World.init [])).2.sgx_driver_symbols
        (sgx_init (mock_registry 4096 8192 0) (World.init [])).2.refs [DrvCall.put 8192])
      (sgx_init (mock_registry 4096 8192 0) (World.init [])).2
      0 4096 8192 4096 8192 (0x12345678 / 4096) (sgx_epc_page.mk 0x12345678)
      (mock_registry 4096 8192 0) rfl rfl rfl rfl
      (by simp [sgx_epc_page_to_pfn, PAGE_SHIFT, Nat.shiftRight_eq_div_pow])).1.1,
    (wrappers_leave_table_and_refcounts (sgx_init (mock_registry 4096 8192 0) (World.init [])).2
      (sgx_init (mock_registry 4096 8192 0) (World.init [])).2
      (sgx_init (mock_registry 4096 8192 0) (World.init [])).2
      (sgx_init (mock_registry 4096 8192 0) (World.init [])).2
      (sgx_init (mock_registry 4096 8192 0) (World.init [])).2
      (sgx_init (mock_registry 4096 8192 0) (World.init [])).2
      (World.mk (sgx_init (mock_registry 4096 8192 0) (World.init [])).2.sgx_driver_symbols
        (sgx_init (mock_registry 4096 8192 0) (World.init [])).2.refs [DrvCall.alloc 0])
      (World.mk (sgx_init (mock_registry 4096 8192 0) (World.init [])).2.sgx_driver_symbols
        (sgx_init (mock_registry 4096 8192 0) (World.init [])).2.refs [DrvCall.free 4096 0])
      (World.mk (sgx_init (mock_registry 4096 8192 0) (World.init [])).2.sgx_driver_symbols
        (sgx_init (mock_registry 4096 8192 0) (World.init [])).2.refs [DrvCall.get 4096])
      (World.mk (sgx_init (mock_registry 4096 8192 0) (World.init [])).2.sgx_driver_symbols
        (sgx_init (mock_registry 4096 8192 0) (World.init [])).2.refs [DrvCall.put 8192])
      (sgx_init (mock_registry 4096 8192 0) (World.init [])).2
      0 4096 8192 4096 8192 (0x12345678 / 4096) (sgx_epc_page.mk 0x12345678)
      (mock_registry 4096 8192 0) rfl rfl rfl rfl
      (by simp [sgx_epc_page_to_pfn, PAGE_SHIFT, Nat.shiftRight_eq_div_pow])).1.2⟩

/-- C13: map/unmap pass-through.  With the table Bound, `sgx_kmap_epc_page(h)`
calls the bound map operation once with `h` and returns its result `r`
unchanged, whatever `r` is (`NULL` and error sentinels are not normalized,
unlike in `sgx_alloc_epc_page`), and `sgx_kunmap_epc_page(a)` calls the bound
unmap operation once with `a`.  On the mock driver the call log grows by
exactly `get h`, respectively `put a`. -/
theorem sgx_kmap_kunmap_pass_through {D : Type} (fa : alloc_fn D) (ff : free_fn D)
    (fg : get_fn D) (fp : put_fn D) (l : List RefEvent) (d d1 : D) (h a r : Nat)
    (hret : fg h d = (r, d1)) :
    sgx_kmap_epc_page h (World.mk (required_sgx_driver_symbols.mk (some fa) (some ff) (some fg) (some fp)) l d) =
      Outcome.ret r (World.mk (required_sgx_driver_symbols.mk (some fa) (some ff) (some fg) (some fp)) l d1) ∧
    sgx_kunmap_epc_page a (World.mk (required_sgx_driver_symbols.mk (some fa) (some ff) (some fg) (some fp)) l d) =
      Outcome.ret () (World.mk (required_sgx_driver_symbols.mk (some fa) (some ff) (some fg) (some fp)) l (fp a d)) ∧
    (∀ (x v : Nat) (st : Int) (log : List DrvCall),
      sgx_kmap_epc_page h (sgx_init (mock_registry x v st) (World.init log)).2 =
        Outcome.ret v
          (World.mk (sgx_init (mock_registry x v st) (World.init log)).2.sgx_driver_symbols
            (sgx_init (mock_registry x v st) (World.init log)).2.refs
            (log ++ [DrvCall.get h])) ∧
      sgx_kunmap_epc_page a (sgx_init (mock_registry x v st) (World.init log)).2 =
        Outcome.ret ()
          (World.mk (sgx_init (mock_registry x v st) (World.init log)).2.sgx_driver_symbols
            (sgx_init (mock_registry x v st) (World.init log)).2.refs
            (log ++ [DrvCall.put a]))) := by
  refine ⟨?_, rfl, fun _ _ _ _ => ⟨rfl, rfl⟩⟩
  simp only [sgx_kmap_epc_page, hret]

/-- Witness for C13: the mock map operation returning the error sentinel
`2^64 - 12`; `sgx_kmap_epc_page` returns it as it is. -/
theorem sgx_kmap_kunmap_pass_through_witness :
    sgx_kmap_epc_page 4096
        (World.mk (required_sgx_driver_symbols.mk (some (mock_alloc 4096)) (some (mock_free 0))
          (some (mock_get (2 ^ 64 - 12))) (some mock_put)) [] []) =
      Outcome.ret (2 ^ 64 - 12)
        (World.mk (required_sgx_driver_symbols.mk (some (mock_alloc 4096)) (some (mock_free 0))
          (some (mock_get (2 ^ 64 - 12))) (some mock_put)) [] [DrvCall.get 4096]) :=
  (sgx_kmap_kunmap_pass_through (mock_alloc 4096) (mock_free 0) (mock_get (2 ^ 64 - 12))
    mock_put [] [] [DrvCall.get 4096] 4096 8192 (2 ^ 64 - 12) rfl).1

/-- C14: uniform failure code.  In every world `sgx_init` returns exactly the
value of `get_sgx_driver_symbols`, and that value is 0 when all four exports
resolve and `-EFAULT`, that is -14, otherwise, whichever export is the first
that does not resolve and however many were resolved before it. -/
theorem sgx_init_returns_zero_or_efault {D : Type} (reg : Registry D) (w : World D) :
    (sgx_init reg w).1 = (get_sgx_driver_symbols reg w).1 ∧
    (get_sgx_driver_symbols reg w).1 =
      (if (reg.exports Sym.sgx_alloc_page && reg.exports Sym.sgx_free_page &&
          reg.exports Sym.sgx_get_page && reg.exports Sym.sgx_put_page) = true
        then 0 else -14) ∧
    (∀ k, reg.exports k = false → (sgx_init reg w).1 = -14) ∧
    -EFAULT = -14 := by
  have key : (get_sgx_driver_symbols reg w).1 =
      (if (reg.exports Sym.sgx_alloc_page && reg.exports Sym.sgx_free_page &&
          reg.exports Sym.sgx_get_page && reg.exports Sym.sgx_put_page) = true
        then 0 else -14) := by
    rcases reg with ⟨a, f, g, p⟩
    cases a <;> cases f <;> cases g <;> cases p <;>
      simp [get_sgx_driver_symbols, symbol_get, EFAULT, Registry.exports]
  refine ⟨by rw [sgx_init_eq_get], key, ?_, rfl⟩
  intro k hk
  rw [sgx_init_eq_get, key]
  cases k <;> simp [hk]

/-- Witness for C14: with `sgx_get_page` withdrawn from the mock driver,
`sgx_init` returns -14. -/
theorem sgx_init_returns_zero_or_efault_witness :
    (sgx_init (mock_registry_without Sym.sgx_get_page) (World.init [])).1 = -14 :=
  (sgx_init_returns_zero_or_efault (mock_registry_without Sym.sgx_get_page)
    (World.init [])).2.2.1 Sym.sgx_get_page rfl

end KvmSgx
